import Mathlib

/-!
Verification of the mortgage-calculator core (src/renderer.js) against its
natural-language specification.

Numbers are modelled as exact rationals (the source uses IEEE-754 doubles;
all operations involved are field operations and natural powers, so `ℚ`
captures the intended arithmetic exactly). A JavaScript number that may be
`NaN` (the raw parsed form fed to `validateInputs`) is modelled as
`Option ℚ`, with `none` standing for `NaN`; JS comparison operators return
`false` on `NaN`, which the `js*` helpers reproduce. A positive-integer
loan duration (guaranteed by validation before the engine runs) is a `ℕ`.
`Date.now()` is modelled as an explicit clock value (`ℤ`, milliseconds)
supplied to each add operation.
-/

/-- Result record returned by `calculateMortgage` (renderer.js lines 37-41). -/
structure AmortizationResult where
  monthlyPayment : ℚ
  totalInterest : ℚ
  totalAmount : ℚ
deriving Repr, DecidableEq

/-- `calculateMortgage` (renderer.js lines 15-42): monthly rate, payment count,
zero-rate straight-line branch or the standard amortization formula, then the
derived totals. -/
def calculateMortgage (principal annualRate : ℚ) (years : ℕ) : AmortizationResult :=
  let monthlyRate := annualRate / 100 / 12
  let numberOfPayments : ℕ := years * 12
  let monthlyPayment :=
    if monthlyRate = 0 then
      principal / (numberOfPayments : ℚ)
    else
      let compoundFactor := (1 + monthlyRate) ^ numberOfPayments
      principal * (monthlyRate * compoundFactor) / (compoundFactor - 1)
  let totalAmount := monthlyPayment * (numberOfPayments : ℚ)
  let totalInterest := totalAmount - principal
  { monthlyPayment := monthlyPayment, totalInterest := totalInterest, totalAmount := totalAmount }

/-- Reference definition of `computePayment` written from the specification's
words (spec section 4.1), for the refinement claim: with r = annualRatePercent/100/12
and n = termYears*12, monthlyPayment = principal/n when r = 0 and
principal*r*(1+r)^n/((1+r)^n - 1) otherwise; totalAmount = monthlyPayment*n;
totalInterest = totalAmount - principal. -/
def computePaymentSpec (principal annualRatePercent : ℚ) (termYears : ℕ) : AmortizationResult :=
  let r := annualRatePercent / 100 / 12
  let n : ℕ := termYears * 12
  let monthlyPayment :=
    if r = 0 then principal / (n : ℚ)
    else principal * r * (1 + r) ^ n / ((1 + r) ^ n - 1)
  { monthlyPayment := monthlyPayment
    totalInterest := monthlyPayment * (n : ℚ) - principal
    totalAmount := monthlyPayment * (n : ℚ) }

/-- JS `isNaN` on a number modelled as `Option ℚ` (`none` = NaN). -/
def jsIsNaN (x : Option ℚ) : Bool := x.isNone

/-- JS `x < c`: `false` when `x` is NaN. -/
def jsLt (x : Option ℚ) (c : ℚ) : Bool :=
  match x with
  | none => false
  | some a => decide (a < c)

/-- JS `x <= c`: `false` when `x` is NaN. -/
def jsLe (x : Option ℚ) (c : ℚ) : Bool :=
  match x with
  | none => false
  | some a => decide (a ≤ c)

/-- JS `x > c`: `false` when `x` is NaN. -/
def jsGt (x : Option ℚ) (c : ℚ) : Bool :=
  match x with
  | none => false
  | some a => decide (c < a)

/-- JS `Number.isInteger x`: `false` when `x` is NaN, else denominator 1. -/
def jsIsInteger (x : Option ℚ) : Bool :=
  match x with
  | none => false
  | some a => decide (a.den = 1)

/-- `validateInputs` (renderer.js lines 66-83): five checks in source order,
first failing check returns its message, `none` (JS `null`) when all pass. -/
def validateInputs (interestRate loanAmount loanDuration lotFees : Option ℚ) : Option String :=
  if jsIsNaN interestRate || jsLt interestRate 0 then
    some "Please enter a valid interest rate (0 or greater)"
  else if jsIsNaN loanAmount || jsLe loanAmount 0 then
    some "Please enter a valid loan amount (greater than 0)"
  else if jsIsNaN loanDuration || jsLe loanDuration 0 || !(jsIsInteger loanDuration) then
    some "Please enter a valid loan duration (whole number of years, greater than 0)"
  else if jsGt interestRate 100 then
    some "Interest rate seems too high. Please enter a rate between 0 and 100%"
  else if jsIsNaN lotFees || jsLt lotFees 0 then
    some "Please enter a valid lot fees amount (0 or greater)"
  else
    none

/-- Spec condition 1: interestRate is a real number and at least 0. -/
def specRateOk (x : Option ℚ) : Prop :=
  match x with
  | none => False
  | some a => 0 ≤ a

/-- Spec condition 2: principal is a real number and greater than 0. -/
def specPrincipalOk (x : Option ℚ) : Prop :=
  match x with
  | none => False
  | some a => 0 < a

/-- Spec condition 3: termYears is a positive integer. -/
def specTermOk (x : Option ℚ) : Prop :=
  match x with
  | none => False
  | some a => 0 < a ∧ a.den = 1

/-- Spec condition 4: interestRate at most 100 (vacuous on NaN, which the
earlier NaN check already rejects; JS `NaN > 100` is `false`). -/
def specCeilingOk (x : Option ℚ) : Prop :=
  match x with
  | none => True
  | some a => a ≤ 100

/-- Spec condition 5: fees is a real number and at least 0. -/
def specFeesOk (x : Option ℚ) : Prop :=
  match x with
  | none => False
  | some a => 0 ≤ a

/-- Post-validation computation of `handleCalculate` (renderer.js lines
156-173): base engine result, lot fees added to the monthly payment, interest
kept fee-free, total recomputed from the adjusted monthly payment. -/
def handleCalculateResult (interestRate loanAmount : ℚ) (loanDuration : ℕ) (lotFees : ℚ) :
    AmortizationResult :=
  let mortgageResults := calculateMortgage loanAmount interestRate loanDuration
  let monthlyPaymentWithLotFees := mortgageResults.monthlyPayment + lotFees
  let numberOfPayments : ℕ := loanDuration * 12
  let totalInterest := mortgageResults.totalInterest
  let totalAmount := monthlyPaymentWithLotFees * (numberOfPayments : ℚ)
  { monthlyPayment := monthlyPaymentWithLotFees
    totalInterest := totalInterest
    totalAmount := totalAmount }

/-- Validated loan inputs as stored in `results.dataset.inputs`
(renderer.js line 175). -/
structure LoanInputs where
  interestRate : ℚ
  loanAmount : ℚ
  loanDuration : ℕ
  lotFees : ℚ
deriving Repr, DecidableEq

/-- A comparison entry (renderer.js lines 262-271): id from `Date.now()`,
the inputs, and the fees-inclusive recomputed result fields. -/
structure ComparisonEntry where
  id : ℤ
  interestRate : ℚ
  loanAmount : ℚ
  loanDuration : ℕ
  lotFees : ℚ
  monthlyPayment : ℚ
  totalInterest : ℚ
  totalAmount : ℚ
deriving Repr, DecidableEq

/-- Successful-path body of `addToComparison` (renderer.js lines 242-274):
recompute the result from the stored inputs via the engine, build the entry
with id `now` (= `Date.now()`), and push it onto the comparison array. -/
def addToComparisonStep (inputs : LoanInputs) (now : ℤ)
    (comparisonMortgages : List ComparisonEntry) : List ComparisonEntry :=
  let mortgageResults :=
    calculateMortgage inputs.loanAmount inputs.interestRate inputs.loanDuration
  let monthlyPaymentWithLotFees := mortgageResults.monthlyPayment + inputs.lotFees
  let numberOfPayments : ℕ := inputs.loanDuration * 12
  let totalInterest := mortgageResults.totalInterest
  let totalAmount := monthlyPaymentWithLotFees * (numberOfPayments : ℚ)
  comparisonMortgages ++
    [{ id := now
       interestRate := inputs.interestRate
       loanAmount := inputs.loanAmount
       loanDuration := inputs.loanDuration
       lotFees := inputs.lotFees
       monthlyPayment := monthlyPaymentWithLotFees
       totalInterest := totalInterest
       totalAmount := totalAmount }]

/-- `addToComparison` including its guard (renderer.js lines 233-281): when no
inputs are stored on the results element it shows an error and returns without
touching the store; otherwise it appends the recomputed entry and clears the
error. Returns the new store state and the error shown, if any. -/
def addToComparisonHandler (datasetInputs : Option LoanInputs) (now : ℤ)
    (comparisonMortgages : List ComparisonEntry) : List ComparisonEntry × Option String :=
  match datasetInputs with
  | none =>
    (comparisonMortgages, some "Please calculate a mortgage first before adding to comparison")
  | some inputs => (addToComparisonStep inputs now comparisonMortgages, none)

/-- `removeFromComparison` (renderer.js lines 287-290): keep exactly the
entries whose id differs from the given one. -/
def removeFromComparison (id : ℤ) (comparisonMortgages : List ComparisonEntry) :
    List ComparisonEntry :=
  comparisonMortgages.filter (fun entry => entry.id != id)

/-- A user-triggered store mutation: an add (with the `Date.now()` value
observed at that moment) or a remove by id. -/
inductive StoreOp where
  | add : LoanInputs → ℤ → StoreOp
  | remove : ℤ → StoreOp
deriving Repr, DecidableEq

/-- One store mutation applied to a store state. -/
def applyOp (s : List ComparisonEntry) : StoreOp → List ComparisonEntry
  | StoreOp.add inputs now => addToComparisonStep inputs now s
  | StoreOp.remove id => removeFromComparison id s

/-- Run a sequence of store mutations from the initial empty store
(renderer.js line 4: `let comparisonMortgages = []`). -/
def runOps (ops : List StoreOp) : List ComparisonEntry :=
  ops.foldl applyOp []

/-- The `Date.now()` values (= assigned ids) of the add operations of a
sequence, in order. -/
def addTimes : List StoreOp → List ℤ
  | [] => []
  | StoreOp.add _ now :: rest => now :: addTimes rest
  | StoreOp.remove _ :: rest => addTimes rest

/-- Concrete validated inputs used by witnesses: 0% rate, 1200 principal,
1 year, no fees. -/
def demoInputs : LoanInputs :=
  { interestRate := 0, loanAmount := 1200, loanDuration := 1, lotFees := 0 }

/-- A concrete comparison entry (the entry `addToComparisonStep demoInputs 1 []`
produces) used by witnesses. -/
def demoEntry : ComparisonEntry :=
  { id := 1, interestRate := 0, loanAmount := 1200, loanDuration := 1, lotFees := 0
    monthlyPayment := 100, totalInterest := 0, totalAmount := 1200 }

example : addToComparisonStep demoInputs 1 [] = [demoEntry] := by
  norm_num [addToComparisonStep, calculateMortgage, demoInputs, demoEntry]

/-- C1: `calculateMortgage` refines the piecewise reference definition
`computePaymentSpec` written from the spec: for every principal > 0,
annualRatePercent in [0,100] and positive termYears the two agree on all three
fields, and in particular `computePayment(100000, 0, 30)` has
monthlyPayment = 100000/360. -/
theorem calculateMortgage_refines_computePaymentSpec :
    (∀ (principal annualRatePercent : ℚ) (termYears : ℕ),
        0 < principal → 0 ≤ annualRatePercent → annualRatePercent ≤ 100 → 0 < termYears →
        calculateMortgage principal annualRatePercent termYears =
          computePaymentSpec principal annualRatePercent termYears)
    ∧ (calculateMortgage 100000 0 30).monthlyPayment = 100000 / 360 := by
  constructor
  · intro p rate y hp h0 h100 hy
    simp only [calculateMortgage, computePaymentSpec]
    split_ifs with h
    · rfl
    · rw [← mul_assoc]
  · norm_num [calculateMortgage]

/-- Witness for C1 at the concrete input principal 100000, rate 0, 30 years. -/
theorem calculateMortgage_refines_computePaymentSpec_witness :
    calculateMortgage 100000 0 30 = computePaymentSpec 100000 0 30 :=
  calculateMortgage_refines_computePaymentSpec.1 100000 0 30 (by norm_num) (by norm_num)
    (by norm_num) (by norm_num)

/-- C3: adding monthly fees transforms the base engine result exactly as
monthlyPayment += fees, totalInterest unchanged, totalAmount = new
monthlyPayment × n, both in the calculate path (`handleCalculateResult`) and
in the add-to-comparison path (`addToComparisonStep`), for every non-negative
fee. -/
theorem fees_applied_post_hoc (interestRate loanAmount : ℚ) (loanDuration : ℕ)
    (lotFees : ℚ) (now : ℤ) (s : List ComparisonEntry) (hf : 0 ≤ lotFees) :
    (handleCalculateResult interestRate loanAmount loanDuration lotFees).monthlyPayment
        = (calculateMortgage loanAmount interestRate loanDuration).monthlyPayment + lotFees
    ∧ (handleCalculateResult interestRate loanAmount loanDuration lotFees).totalInterest
        = (calculateMortgage loanAmount interestRate loanDuration).totalInterest
    ∧ (handleCalculateResult interestRate loanAmount loanDuration lotFees).totalAmount
        = (handleCalculateResult interestRate loanAmount loanDuration lotFees).monthlyPayment
            * ((loanDuration * 12 : ℕ) : ℚ)
    ∧ addToComparisonStep ⟨interestRate, loanAmount, loanDuration, lotFees⟩ now s
        = s ++
          [{ id := now
             interestRate := interestRate
             loanAmount := loanAmount
             loanDuration := loanDuration
             lotFees := lotFees
             monthlyPayment :=
               (calculateMortgage loanAmount interestRate loanDuration).monthlyPayment + lotFees
             totalInterest :=
               (calculateMortgage loanAmount interestRate loanDuration).totalInterest
             totalAmount :=
               ((calculateMortgage loanAmount interestRate loanDuration).monthlyPayment + lotFees)
                 * ((loanDuration * 12 : ℕ) : ℚ) }] :=
  ⟨rfl, rfl, rfl, rfl⟩

/-- Witness for C3 at rate 0, principal 1200, 1 year, fees 50. -/
theorem fees_applied_post_hoc_witness :
    (0 : ℚ) ≤ 50
    ∧ (handleCalculateResult 0 1200 1 50).monthlyPayment
        = (calculateMortgage 1200 0 1).monthlyPayment + 50 :=
  ⟨by norm_num, (fees_applied_post_hoc 0 1200 1 50 7 [] (by norm_num)).1⟩

/-- C5 counterexample: at the valid inputs rate 0, principal 100000, 30 years,
monthly lot fees 50 (which pass validation), the final fees-inclusive result
has totalAmount − totalInterest = 118000, not the principal 100000: the fees
inflate totalAmount but not totalInterest. -/
theorem final_principal_identity_counterexample :
    validateInputs (some 0) (some 100000) (some 30) (some 50) = none
    ∧ (handleCalculateResult 0 100000 30 50).totalAmount
        - (handleCalculateResult 0 100000 30 50).totalInterest = 118000
    ∧ ¬ ((handleCalculateResult 0 100000 30 50).totalAmount
          - (handleCalculateResult 0 100000 30 50).totalInterest = 100000) := by
  refine ⟨?_, ?_, ?_⟩ <;>
    norm_num [validateInputs, handleCalculateResult, calculateMortgage,
      jsIsNaN, jsLt, jsLe, jsGt, jsIsInteger]

/-- C5 amended: for the final fees-inclusive result,
totalAmount − totalInterest = principal + monthlyFees × n (exactly); the
claimed identity totalAmount − totalInterest = principal holds exactly when
the fees are zero. -/
theorem final_total_minus_interest (interestRate loanAmount : ℚ) (loanDuration : ℕ)
    (lotFees : ℚ) :
    (handleCalculateResult interestRate loanAmount loanDuration lotFees).totalAmount
        - (handleCalculateResult interestRate loanAmount loanDuration lotFees).totalInterest
      = loanAmount + lotFees * ((loanDuration * 12 : ℕ) : ℚ)
    ∧ (lotFees = 0 →
        (handleCalculateResult interestRate loanAmount loanDuration lotFees).totalAmount
            - (handleCalculateResult interestRate loanAmount loanDuration lotFees).totalInterest
          = loanAmount) := by
  constructor
  · simp only [handleCalculateResult, calculateMortgage]
    ring
  · intro h
    subst h
    simp only [handleCalculateResult, calculateMortgage]
    ring

/-- Witness for C5 amended at rate 0, principal 100000, 30 years, fees 0. -/
theorem final_total_minus_interest_witness :
    (handleCalculateResult 0 100000 30 0).totalAmount
        - (handleCalculateResult 0 100000 30 0).totalInterest = 100000 :=
  (final_total_minus_interest 0 100000 30 0).2 rfl

/-- C6: `addToComparisonStep` recomputes the stored result from the inputs via
the engine (the stored payment/interest/total fields are exactly the
fees-inclusive engine output for the stored inputs), appends the new entry at
the end, and preserves the previous entries and their order. -/
theorem add_recomputes_and_appends (s : List ComparisonEntry) (inputs : LoanInputs) (now : ℤ) :
    addToComparisonStep inputs now s
      = s ++
        [{ id := now
           interestRate := inputs.interestRate
           loanAmount := inputs.loanAmount
           loanDuration := inputs.loanDuration
           lotFees := inputs.lotFees
           monthlyPayment :=
             (calculateMortgage inputs.loanAmount inputs.interestRate
                 inputs.loanDuration).monthlyPayment + inputs.lotFees
           totalInterest :=
             (calculateMortgage inputs.loanAmount inputs.interestRate
                 inputs.loanDuration).totalInterest
           totalAmount :=
             ((calculateMortgage inputs.loanAmount inputs.interestRate
                  inputs.loanDuration).monthlyPayment + inputs.lotFees)
               * ((inputs.loanDuration * 12 : ℕ) : ℚ) }]
    ∧ (addToComparisonStep inputs now s).take s.length = s
    ∧ (addToComparisonStep inputs now s).length = s.length + 1 := by
  refine ⟨rfl, ?_, ?_⟩
  · show (s ++ _).take s.length = s
    exact List.take_left s _
  · show (s ++ _).length = s.length + 1
    simp

/-- Witness for C6: adding to the singleton store `[demoEntry]` keeps that
entry first and appends the recomputed entry for `demoInputs`. -/
theorem add_recomputes_and_appends_witness :
    (addToComparisonStep demoInputs 2 [demoEntry]).take 1 = [demoEntry]
    ∧ (addToComparisonStep demoInputs 2 [demoEntry]).length = 2 :=
  ⟨(add_recomputes_and_appends [demoEntry] demoInputs 2).2.1,
   (add_recomputes_and_appends [demoEntry] demoInputs 2).2.2⟩

/-- C7: removing an id that no entry of the store carries is a no-op: the
store afterwards equals the store before, element for element. -/
theorem remove_absent_id_noop (id : ℤ) (s : List ComparisonEntry)
    (h : ∀ e ∈ s, e.id ≠ id) :
    removeFromComparison id s = s := by
  unfold removeFromComparison
  rw [List.filter_eq_self]
  intro e he
  simpa using h e he

/-- Witness for C7: id 2 is absent from `[demoEntry]` (whose entry has id 1),
and removing it leaves the store unchanged. -/
theorem remove_absent_id_noop_witness :
    (∀ e ∈ [demoEntry], e.id ≠ 2) ∧ removeFromComparison 2 [demoEntry] = [demoEntry] :=
  ⟨by simp [demoEntry], remove_absent_id_noop 2 [demoEntry] (by simp [demoEntry])⟩

/-- C9: `removeFromComparison id` keeps exactly the entries whose id differs
from `id`, in their original relative order (the result is a sublist of the
input), so every entry bearing the id — duplicates included — is deleted. -/
theorem remove_filters_all_matching (id : ℤ) (s : List ComparisonEntry) :
    List.Sublist (removeFromComparison id s) s
    ∧ ∀ e, e ∈ removeFromComparison id s ↔ e ∈ s ∧ e.id ≠ id := by
  constructor
  · exact List.filter_sublist s
  · intro e
    simp [removeFromComparison, List.mem_filter]

/-- Witness for C9: removing id 1 from a store holding two entries with id 1
deletes both. -/
theorem remove_filters_all_matching_witness :
    ¬ (demoEntry ∈ removeFromComparison 1 [demoEntry, demoEntry]) := by
  have h := (remove_filters_all_matching 1 [demoEntry, demoEntry]).2 demoEntry
  intro hmem
  exact ((h.mp hmem).2) rfl

/-- C10: invoking add-to-comparison with no stored inputs reports the
calculate-first error and leaves the comparison store unchanged: no entry is
appended. -/
theorem add_without_inputs_error_noop (now : ℤ) (s : List ComparisonEntry) :
    addToComparisonHandler none now s
      = (s, some "Please calculate a mortgage first before adding to comparison") := rfl


lemma specRateOk_pass (x : Option ℚ) :
    specRateOk x ↔ (jsIsNaN x || jsLt x 0) = false := by
  cases x <;> simp [jsIsNaN, jsLt, specRateOk, not_lt]

lemma specPrincipalOk_pass (x : Option ℚ) :
    specPrincipalOk x ↔ (jsIsNaN x || jsLe x 0) = false := by
  cases x <;> simp [jsIsNaN, jsLe, specPrincipalOk, not_le]

lemma specTermOk_pass (x : Option ℚ) :
    specTermOk x ↔ (jsIsNaN x || jsLe x 0 || !(jsIsInteger x)) = false := by
  cases x <;> simp [jsIsNaN, jsLe, jsIsInteger, specTermOk, not_le]

lemma specCeilingOk_pass (x : Option ℚ) :
    specCeilingOk x ↔ jsGt x 100 = false := by
  cases x <;> simp [jsGt, specCeilingOk, not_lt]

lemma specFeesOk_pass (x : Option ℚ) :
    specFeesOk x ↔ (jsIsNaN x || jsLt x 0) = false := by
  cases x <;> simp [jsIsNaN, jsLt, specFeesOk, not_lt]

/-- C2: `validateInputs` checks its five conditions in the fixed source order,
returns the distinct message of the first failing check (short-circuit), and
returns `none` exactly when all five pass. -/
theorem validateInputs_first_failing (ir la ld lf : Option ℚ) :
    (validateInputs ir la ld lf = none ↔
      specRateOk ir ∧ specPrincipalOk la ∧ specTermOk ld ∧ specCeilingOk ir ∧ specFeesOk lf)
    ∧ (¬ specRateOk ir →
        validateInputs ir la ld lf = some "Please enter a valid interest rate (0 or greater)")
    ∧ (specRateOk ir → ¬ specPrincipalOk la →
        validateInputs ir la ld lf = some "Please enter a valid loan amount (greater than 0)")
    ∧ (specRateOk ir → specPrincipalOk la → ¬ specTermOk ld →
        validateInputs ir la ld lf =
          some "Please enter a valid loan duration (whole number of years, greater than 0)")
    ∧ (specRateOk ir → specPrincipalOk la → specTermOk ld → ¬ specCeilingOk ir →
        validateInputs ir la ld lf =
          some "Interest rate seems too high. Please enter a rate between 0 and 100%")
    ∧ (specRateOk ir → specPrincipalOk la → specTermOk ld → specCeilingOk ir →
        ¬ specFeesOk lf →
        validateInputs ir la ld lf = some "Please enter a valid lot fees amount (0 or greater)")
    ∧ ([ "Please enter a valid interest rate (0 or greater)",
         "Please enter a valid loan amount (greater than 0)",
         "Please enter a valid loan duration (whole number of years, greater than 0)",
         "Interest rate seems too high. Please enter a rate between 0 and 100%",
         "Please enter a valid lot fees amount (0 or greater)" ] : List String).Nodup := by
  have hmsgs : ([ "Please enter a valid interest rate (0 or greater)",
         "Please enter a valid loan amount (greater than 0)",
         "Please enter a valid loan duration (whole number of years, greater than 0)",
         "Interest rate seems too high. Please enter a rate between 0 and 100%",
         "Please enter a valid lot fees amount (0 or greater)" ] : List String).Nodup := by
    decide
  unfold validateInputs
  cases hb1 : (jsIsNaN ir || jsLt ir 0) with
  | true =>
    simp [specRateOk_pass, specPrincipalOk_pass, specTermOk_pass, specCeilingOk_pass,
      specFeesOk_pass, hb1, hmsgs]
  | false =>
    cases hb2 : (jsIsNaN la || jsLe la 0) with
    | true =>
      simp [specRateOk_pass, specPrincipalOk_pass, specTermOk_pass, specCeilingOk_pass,
        specFeesOk_pass, hb1, hb2, hmsgs]
    | false =>
      cases hb3 : (jsIsNaN ld || jsLe ld 0 || !(jsIsInteger ld)) with
      | true =>
        simp [specRateOk_pass, specPrincipalOk_pass, specTermOk_pass, specCeilingOk_pass,
          specFeesOk_pass, hb1, hb2, hb3, hmsgs]
      | false =>
        cases hb4 : jsGt ir 100 with
        | true =>
          simp [specRateOk_pass, specPrincipalOk_pass, specTermOk_pass, specCeilingOk_pass,
            specFeesOk_pass, hb1, hb2, hb3, hb4, hmsgs]
        | false =>
          cases hb5 : (jsIsNaN lf || jsLt lf 0) with
          | true =>
            simp [specRateOk_pass, specPrincipalOk_pass, specTermOk_pass, specCeilingOk_pass,
              specFeesOk_pass, hb1, hb2, hb3, hb4, hb5, hmsgs]
          | false =>
            simp [specRateOk_pass, specPrincipalOk_pass, specTermOk_pass, specCeilingOk_pass,
              specFeesOk_pass, hb1, hb2, hb3, hb4, hb5, hmsgs]

/-- Witness for C2: -1 percent trips the interest-rate check, and 150 percent
trips the too-high check after the earlier checks pass. -/
theorem validateInputs_first_failing_witness :
    validateInputs (some (-1)) (some 100000) (some 30) (some 0)
        = some "Please enter a valid interest rate (0 or greater)"
    ∧ validateInputs (some 150) (some 100000) (some 30) (some 0)
        = some "Interest rate seems too high. Please enter a rate between 0 and 100%" :=
  ⟨(validateInputs_first_failing (some (-1)) (some 100000) (some 30) (some 0)).2.1
      (by norm_num [specRateOk]),
   (validateInputs_first_failing (some 150) (some 100000) (some 30) (some 0)).2.2.2.2.1
      (by norm_num [specRateOk]) (by norm_num [specPrincipalOk])
      (by norm_num [specTermOk]) (by norm_num [specCeilingOk])⟩

/-- Exact-arithmetic totality of the engine: for inputs that pass validation
(positive principal, rate in [0,100], positive integer term) the ideal
rational computation divides by a positive payment count in the zero-rate
branch and by the positive (1+r)^n − 1 in the formula branch, giving a
positive monthly payment. This is a statement about the ideal formula only:
the program computes in IEEE-754 doubles, where the formula-branch
denominator can round to exactly 0 for tiny validated rates (see
`tiny_validated_rate_below_double_half_gap`). -/
theorem engine_safe_on_valid_inputs (principal annualRate : ℚ) (years : ℕ)
    (hp : 0 < principal) (h0 : 0 ≤ annualRate) (h100 : annualRate ≤ 100) (hy : 0 < years) :
    (0 : ℚ) < ((years * 12 : ℕ) : ℚ)
    ∧ (annualRate / 100 / 12 ≠ 0 →
        0 < (1 + annualRate / 100 / 12) ^ (years * 12) - 1)
    ∧ 0 < (calculateMortgage principal annualRate years).monthlyPayment := by
  have hn : (0 : ℚ) < ((years * 12 : ℕ) : ℚ) := by
    have : 0 < years * 12 := by omega
    exact_mod_cast this
  have hr : 0 ≤ annualRate / 100 / 12 := by positivity
  have hpow : annualRate / 100 / 12 ≠ 0 →
      0 < (1 + annualRate / 100 / 12) ^ (years * 12) - 1 := by
    intro hne
    have hrpos : 0 < annualRate / 100 / 12 := lt_of_le_of_ne hr (Ne.symm hne)
    have h1 : 1 < 1 + annualRate / 100 / 12 := by linarith
    have := one_lt_pow₀ h1 (show years * 12 ≠ 0 by omega)
    linarith
  refine ⟨hn, hpow, ?_⟩
  by_cases h : annualRate / 100 / 12 = 0
  · simp only [calculateMortgage, if_pos h]
    exact div_pos hp hn
  · simp only [calculateMortgage, if_neg h]
    have hrpos : 0 < annualRate / 100 / 12 := lt_of_le_of_ne hr (Ne.symm h)
    have hF1 : 1 < (1 + annualRate / 100 / 12) ^ (years * 12) :=
      one_lt_pow₀ (by linarith) (show years * 12 ≠ 0 by omega)
    have hFpos : 0 < (1 + annualRate / 100 / 12) ^ (years * 12) := by linarith
    exact div_pos (by positivity) (by linarith [hpow h])

/-- C8: the code violates the claim at a validated input. The rate 10^-13
percent passes validation (with principal 100000, 30 years, no fees), and its
exact monthly rate r = 10^-13/100/12 is positive — so the ideal formula-branch
denominator is nonzero and the exact-rational engine returns a positive
payment — yet r is far below 2^-53, the distance from 1.0 to the midpoint
toward the next IEEE-754 double. The program therefore computes
1 + monthlyRate as exactly 1.0, Math.pow gives compoundFactor = 1, the
denominator compoundFactor − 1 at renderer.js line 30 is exactly 0, and the
returned fields are Infinity rather than finite numbers. -/
theorem tiny_validated_rate_below_double_half_gap :
    validateInputs (some (1 / 10 ^ 13)) (some 100000) (some 30) (some 0) = none
    ∧ 0 < (1 : ℚ) / 10 ^ 13 / 100 / 12
    ∧ (1 : ℚ) / 10 ^ 13 / 100 / 12 < 1 / 2 ^ 53
    ∧ 0 < (calculateMortgage 100000 (1 / 10 ^ 13) 30).monthlyPayment := by
  refine ⟨?_, by norm_num, by norm_num, ?_⟩
  · norm_num [validateInputs, jsIsNaN, jsLt, jsLe, jsGt, jsIsInteger]
  · exact (engine_safe_on_valid_inputs 100000 (1 / 10 ^ 13) 30 (by norm_num) (by norm_num)
      (by norm_num) (by norm_num)).2.2

lemma foldl_map_id_sublist (ops : List StoreOp) (s : List ComparisonEntry) :
    List.Sublist ((ops.foldl applyOp s).map (fun e => e.id))
      (s.map (fun e => e.id) ++ addTimes ops) := by
  induction ops generalizing s with
  | nil => simp
  | cons op rest ih =>
    cases op with
    | add inputs now =>
      have h := ih (applyOp s (StoreOp.add inputs now))
      simpa [applyOp, addToComparisonStep, addTimes] using h
    | remove id =>
      have h := ih (applyOp s (StoreOp.remove id))
      refine h.trans ?_
      have hfil :
          List.Sublist ((removeFromComparison id s).map (fun e => e.id))
            (s.map (fun e => e.id)) :=
        (List.filter_sublist s).map (fun e => e.id)
      simpa [applyOp, addTimes] using hfil.append_right (addTimes rest)

/-- C4 counterexample: two adds during the same millisecond (`Date.now()`
returning 5 both times) leave the store holding two entries with the same
id 5, so the ids assigned by the store are not pairwise distinct. -/
theorem store_ids_unique_counterexample :
    (runOps [StoreOp.add demoInputs 5, StoreOp.add demoInputs 5]).map (fun e => e.id) = [5, 5]
    ∧ ¬ ((runOps [StoreOp.add demoInputs 5,
          StoreOp.add demoInputs 5]).map (fun e => e.id)).Nodup := by
  have h : (runOps [StoreOp.add demoInputs 5,
      StoreOp.add demoInputs 5]).map (fun e => e.id) = [5, 5] := rfl
  exact ⟨h, by rw [h]; decide⟩

/-- C4 amended: provided the `Date.now()` values observed at the add
operations are pairwise distinct, every id the store ever assigns is distinct
(ids are exactly those clock values), no removed id is ever reassigned, and no
reachable store state holds two entries with the same id. -/
theorem store_ids_unique_of_distinct_times (ops : List StoreOp)
    (h : (addTimes ops).Nodup) :
    ((runOps ops).map (fun e => e.id)).Nodup := by
  have hsub := foldl_map_id_sublist ops []
  simp only [List.map_nil, List.nil_append] at hsub
  exact h.sublist hsub

/-- Witness for C4 amended: two adds at distinct clock values 1 and 2 leave a
store whose entry ids are distinct. -/
theorem store_ids_unique_of_distinct_times_witness :
    (addTimes [StoreOp.add demoInputs 1, StoreOp.add demoInputs 2]).Nodup
    ∧ ((runOps [StoreOp.add demoInputs 1,
        StoreOp.add demoInputs 2]).map (fun e => e.id)).Nodup :=
  ⟨by decide,
   store_ids_unique_of_distinct_times [StoreOp.add demoInputs 1, StoreOp.add demoInputs 2]
     (by decide)⟩
